import Mathlib

/-!
Verification of the filtered-query and record lifecycle component of the
Customer_File_Dashboard service (src/app.py), via a shallow embedding of
the handlers `upload_file`, `get_files`, `update_file`, `delete_file` and
`export_to_csv` together with their blob-store side effects.

Conventions of the embedding:
* Python strings are Lean `String` / `List Char`; the Unicode classifier
  `str.isalnum` is passed as an explicit parameter `isAlnum` (its table is
  environment data, not program logic).
* calendar dates are day numbers (`Nat`, rata-die style), so that the
  source's `date + timedelta(days = 1)` is `+ 1` and date comparison is the
  numeric order;
* SQL `NULL` is `Option.none`; a SQL comparison against `NULL` is false
  (three-valued logic restricted to `WHERE`), which the record predicates
  reproduce;
* the external permissive date parser (`dateutil.parser.parse(...).date()`)
  is modelled by an executable ISO `YYYY-MM-DD` parser `parseDateOpt`; a
  `none` result models the `ValueError` the library raises on garbage;
* each handler's `try/except` nesting is reproduced: an `HTTPException`
  raised inside a handler body is caught by that handler's own broad
  `except Exception` clause (FastAPI's `HTTPException` derives from
  `Exception`) and re-raised with status 500.
-/

/-- Python `str.lower()` as used on ASCII filename extensions. -/
def toLowerStr (s : String) : String :=
  String.mk (s.data.map Char.toLower)

/-- Python `str.strip()` on a list of characters: drop whitespace from both ends. -/
def pyStrip (l : List Char) : List Char :=
  ((l.dropWhile Char.isWhitespace).reverse.dropWhile Char.isWhitespace).reverse

/-- Truthiness of an optional Python string (`if s:`): `None` and `""` are falsy. -/
def pyTruthyS : Option String → Bool
  | none => false
  | some s => s ≠ ""

/-- Index of the last occurrence of `c` (Python `str.rfind`), accumulator form. -/
def rfindAux (c : Char) : List Char → Nat → Option Nat → Option Nat
  | [], _, acc => acc
  | x :: xs, i, acc => rfindAux c xs (i + 1) (if x = c then some i else acc)

/-- Index of the last occurrence of `c` in `l`, or `none` (Python `str.rfind`). -/
def rfind (c : Char) (l : List Char) : Option Nat :=
  rfindAux c l 0 none

/-- Extension part of `posixpath.splitext`: the suffix from the last dot,
provided that dot lies strictly after the last path separator and some
non-dot character precedes it within the basename (so dotfiles such as
`.bashrc` have no extension). -/
def splitextExtL (l : List Char) : List Char :=
  match rfind '.' l with
  | none => []
  | some di =>
    let start := match rfind '/' l with
      | none => 0
      | some si => si + 1
    if start ≤ di then
      if ((l.drop start).take (di - start)).any (fun c => c ≠ '.') then
        l.drop di
      else []
    else []

/-- Extension of a path as a string, `os.path.splitext(p)[1]`. -/
def splitextExt (p : String) : String :=
  String.mk (splitextExtL p.data)

/-- Lower-cased extension of the original filename, source line 88:
`os.path.splitext(file.filename)[1].lower()`. -/
def fileExtensionOf (fname : String) : String :=
  toLowerStr (splitextExt fname)

/-- Allowed upload extensions, source line 89. -/
def allowedExtensions : List String :=
  [".jpg", ".jpeg", ".png", ".pdf"]

/-- Character filter of source line 92: keep `c` when `c.isalnum()` or `c`
is one of `.`, `_`, `-`. -/
def keepChar (isAlnum : Char → Bool) (c : Char) : Bool :=
  isAlnum c || c = '.' || c = '_' || c = '-'

/-- Sanitized filename, source line 92:
`"".join(c for c in file.filename if c.isalnum() or c in ('.', '_', '-')).strip()`. -/
def sanitized_filename (isAlnum : Char → Bool) (fname : String) : String :=
  String.mk (pyStrip (fname.data.filter (keepChar isAlnum)))

/-- Wall-clock timestamp components for `datetime.now()`. -/
structure Timestamp where
  year : Nat
  month : Nat
  day : Nat
  hour : Nat
  minute : Nat
  second : Nat
deriving Repr, DecidableEq

/-- Zero-pad a numeral to at least two digits (`strftime` field). -/
def pad2 (n : Nat) : String :=
  if n < 10 then "0" ++ toString n else toString n

/-- Zero-pad a numeral to at least four digits (`strftime` `%Y`). -/
def pad4 (n : Nat) : String :=
  if n < 10 then "000" ++ toString n
  else if n < 100 then "00" ++ toString n
  else if n < 1000 then "0" ++ toString n
  else toString n

/-- Timestamp formatting of source line 94: `strftime('%Y%m%d%H%M%S')`. -/
def formatTimestamp (t : Timestamp) : String :=
  pad4 t.year ++ pad2 t.month ++ pad2 t.day ++ pad2 t.hour ++ pad2 t.minute ++ pad2 t.second

/-- Stored filename computed by the upload handler, source lines 92-94:
the sanitized name, or a synthesized `uploaded_file_<timestamp><ext>` name
when sanitization yields the empty string. -/
def storedFilename (isAlnum : Char → Bool) (now : Timestamp) (fname : String) : String :=
  let s := sanitized_filename isAlnum fname
  if s = "" then "uploaded_file_" ++ formatTimestamp now ++ fileExtensionOf fname else s

/-- Companion definition written from the specification text (spec section
4.1): retain only the characters that are alphanumeric or one of `.`, `_`,
`-`, discarding every other character, then trim surrounding whitespace;
if the result is empty, synthesize `uploaded_file_` + timestamp
`YYYYMMDDHHMMSS` + the original lower-cased extension. Kept separate from
`storedFilename` so the two can be compared. -/
def specStoredFilename (isAlnum : Char → Bool) (now : Timestamp) (fname : String) : String :=
  let retained := fname.data.filter (fun c => isAlnum c || c ∈ ['.', '_', '-'])
  let trimmed := (retained.dropWhile Char.isWhitespace).reverse.dropWhile Char.isWhitespace
  let result := String.mk trimmed.reverse
  if result = "" then
    "uploaded_file_" ++ formatTimestamp now ++ toLowerStr (splitextExt fname)
  else result

/-- Gregorian leap-year test. -/
def isLeap (y : Nat) : Bool :=
  (y % 4 = 0 && y % 100 ≠ 0) || y % 400 = 0

/-- Day count of a Gregorian month. -/
def daysInMonth (y m : Nat) : Nat :=
  if m = 2 then (if isLeap y then 29 else 28)
  else if m = 4 ∨ m = 6 ∨ m = 9 ∨ m = 11 then 30
  else 31

/-- Rata-die style day number of a civil date (monotone in calendar order;
consecutive dates map to consecutive numbers). -/
def dayNumber (y m d : Nat) : Nat :=
  let yy := if m ≤ 2 then y - 1 else y
  let mm := if m ≤ 2 then m + 9 else m - 3
  365 * yy + yy / 4 - yy / 100 + yy / 400 + (153 * mm + 2) / 5 + d

/-- Digit value of a decimal character, or `none`. -/
def digitVal (c : Char) : Option Nat :=
  if c.isDigit then some (c.toNat - 48) else none

/-- Decimal reading of a nonempty digit string, or `none`. -/
def natOfDigits (l : List Char) : Option Nat :=
  match l with
  | [] => none
  | _ =>
    l.foldl (fun acc c => match acc, digitVal c with
      | some n, some d => some (10 * n + d)
      | _, _ => none) (some 0)

/-- Split a character list at a separator character. -/
def splitOnChar (sep : Char) (l : List Char) : List (List Char) :=
  match l with
  | [] => [[]]
  | c :: cs =>
    let rest := splitOnChar sep cs
    if c = sep then [] :: rest
    else match rest with
      | [] => [[c]]
      | r :: rs => (c :: r) :: rs

/-- Modelled from the spec: the external permissive date parser
(`dateutil.parser.parse(s).date()`, a third-party library outside this
repository), restricted to ISO `YYYY-MM-DD` dates. A valid date yields its
day number; `none` models the `ValueError` raised on an unparseable value. -/
def parseDateOpt (s : String) : Option Nat :=
  match splitOnChar '-' s.data with
  | [ys, ms, ds] =>
    match natOfDigits ys, natOfDigits ms, natOfDigits ds with
    | some y, some m, some d =>
      if 1 ≤ y ∧ 1 ≤ m ∧ m ≤ 12 ∧ 1 ≤ d ∧ d ≤ daysInMonth y m then
        some (dayNumber y m d)
      else none
    | _, _, _ => none
  | _ => none

/-- Row of the `uploaded_files` table (class `UploadedFile`, source lines
35-48). Dates are day numbers, monetary `Numeric` columns are integers in
hundredths (the order embedding is all the filters use), nullable columns
are `Option`. `similarity_status` is nullable with insert-time default
`"No"`. -/
structure FileRecord where
  id : Nat
  filename : String
  owner : String
  work_detail : Option String
  uploaded_at : Timestamp
  client_ip : Option String
  ocr_text : Option String
  receipt_date : Option Nat
  total_amount : Option Int
  similarity_status : Option String
  similar_to_file_id : Option Nat
  similarity_score : Option Int
deriving Repr, DecidableEq

/-- Record created by the upload handler (source lines 108-113) after the
column defaults (`uploaded_at = datetime.now`, `similarity_status = "No"`)
are applied on insert. -/
def mkRecord (id : Nat) (filename owner : String) (work_detail : Option String)
    (now : Timestamp) (client_ip : Option String) : FileRecord :=
  { id := id, filename := filename, owner := owner, work_detail := work_detail,
    uploaded_at := now, client_ip := client_ip, ocr_text := none, receipt_date := none,
    total_amount := none, similarity_status := some "No", similar_to_file_id := none,
    similarity_score := none }

/-- Combined persistent state: the blob directory (`BACKUP_FOLDER`) as the
set of stored filenames, the table rows, and the next auto-assigned id. -/
structure SysState where
  blobs : List String
  records : List FileRecord
  nextId : Nat
deriving Repr, DecidableEq

/-- Blob write with overwrite (source lines 101-102): an existing name is
overwritten in place, a new name is added. -/
def putBlob (name : String) (blobs : List String) : List String :=
  if name ∈ blobs then blobs else blobs ++ [name]

/-- Outcome of the upload endpoint as surfaced over HTTP. -/
inductive UploadResult where
  | created (id : Nat)
  | httpError (status : Nat) (detail : String)
deriving Repr, DecidableEq

/-- Upload handler, source lines 76-127. `blobWriteOk` is the environment's
verdict on the disk write (lines 101-102), `insertOk` on the DB commit
(lines 114-115). Every `HTTPException` raised in the body — including the
explicit 400s of lines 86 and 90 and the 500 of line 122 — is caught by
the broad `except Exception` of line 125 and re-raised as status 500 with
detail `"An error occurred during upload: {e}"`. -/
def upload_file (isAlnum : Char → Bool) (now : Timestamp)
    (fname owner : String) (work_detail client_ip : Option String)
    (blobWriteOk insertOk : Bool) (st : SysState) : SysState × UploadResult :=
  if fname = "" then
    (st, .httpError 500 "An error occurred during upload: 400: No file selected for upload.")
  else if fileExtensionOf fname ∉ allowedExtensions then
    (st, .httpError 500
      "An error occurred during upload: 400: Invalid file type. Only JPG, JPEG, PNG, PDF are allowed.")
  else
    let name := storedFilename isAlnum now fname
    if blobWriteOk = false then
      (st, .httpError 500 "An error occurred during upload: disk write failed")
    else
      let st₁ : SysState := { st with blobs := putBlob name st.blobs }
      if insertOk then
        ({ st₁ with
            records := st₁.records ++ [mkRecord st.nextId name owner work_detail now client_ip],
            nextId := st.nextId + 1 },
         .created st.nextId)
      else
        (st₁, .httpError 500
          "An error occurred during upload: 500: Failed to save file info to database: insert failed")

/-- Outcome of the delete endpoint as surfaced over HTTP. -/
inductive DeleteResult where
  | deleted
  | httpError (status : Nat) (detail : String)
deriving Repr, DecidableEq

/-- Delete handler, source lines 268-292: select the first row matching
both id and owner (line 272); on no match raise 404 (line 274), which the
broad `except Exception` of line 287 converts to a 500 with the one fixed
detail string; on a match remove the blob only if present on disk (lines
277-281, absence is merely logged) and delete the row. The DB commit is
assumed to succeed (no claim concerns its failure). -/
def delete_file (fid : Nat) (owner : String) (st : SysState) : SysState × DeleteResult :=
  match st.records.find? (fun r => r.id == fid && r.owner == owner) with
  | none =>
    (st, .httpError 500 "Failed to delete file: 404: File not found or owner mismatch.")
  | some r =>
    let blobs := if r.filename ∈ st.blobs then st.blobs.erase r.filename else st.blobs
    let records := st.records.eraseP (fun x => x.id == fid && x.owner == owner)
    ({ blobs := blobs, records := records, nextId := st.nextId }, .deleted)

/-- Query parameters of `GET /api/files` (source lines 131-138); `none` is
an absent parameter. -/
structure FilesQuery where
  owner : Option String
  filename : Option String
  receipt_date_start : Option String
  receipt_date_end : Option String
  total_amount_min : Option Int
  total_amount_max : Option Int
  similarity_status : Option String
deriving Repr, DecidableEq

/-- An absent query object: every parameter `none`. -/
def emptyQuery : FilesQuery :=
  { owner := none, filename := none, receipt_date_start := none, receipt_date_end := none,
    total_amount_min := none, total_amount_max := none, similarity_status := none }

/-- Containment of one character list in another at any position. -/
def containsSub (needle : List Char) : List Char → Bool
  | [] => needle.isEmpty
  | c :: t => needle.isPrefixOf (c :: t) || containsSub needle t

/-- Case-insensitive substring test, modelling `column.ilike(f"%{s}%")`. -/
def ilikeContains (s : String) (hay : String) : Bool :=
  containsSub (toLowerStr s).data (toLowerStr hay).data

/-- Filter body of the list handler, source lines 142-170, before the outer
exception wrapper. Each `if param:` guard is Python truthiness (lines 144,
146, 149, 155, 167), the amount guards are `is not None` (lines 162, 164).
SQL comparisons against a `NULL` column are false. An unparseable supplied
date raises the 400 of line 154 resp. line 160. -/
def get_files_inner (q : FilesQuery) (db : List FileRecord) :
    Except (Nat × String) (List FileRecord) :=
  let rows₁ := match q.owner with
    | some s => if s ≠ "" then db.filter (fun r => r.owner == s) else db
    | none => db
  let rows₂ := match q.filename with
    | some s => if s ≠ "" then rows₁.filter (fun r => ilikeContains s r.filename) else rows₁
    | none => rows₁
  let step₃ : Except (Nat × String) (List FileRecord) := match q.receipt_date_start with
    | some s =>
      if s ≠ "" then
        match parseDateOpt s with
        | some d₀ => .ok (rows₂.filter (fun r => match r.receipt_date with
            | some d => decide (d₀ ≤ d)
            | none => false))
        | none => .error (400, "Invalid receipt_date_start format. Use YYYY-MM-DD.")
      else .ok rows₂
    | none => .ok rows₂
  match step₃ with
  | .error e => .error e
  | .ok rows₃ =>
    let step₄ : Except (Nat × String) (List FileRecord) := match q.receipt_date_end with
      | some s =>
        if s ≠ "" then
          match parseDateOpt s with
          | some d₁ => .ok (rows₃.filter (fun r => match r.receipt_date with
              | some d => decide (d < d₁ + 1)
              | none => false))
          | none => .error (400, "Invalid receipt_date_end format. Use YYYY-MM-DD.")
        else .ok rows₃
      | none => .ok rows₃
    match step₄ with
    | .error e => .error e
    | .ok rows₄ =>
      let rows₅ := match q.total_amount_min with
        | some m => rows₄.filter (fun r => match r.total_amount with
            | some a => decide (m ≤ a)
            | none => false)
        | none => rows₄
      let rows₆ := match q.total_amount_max with
        | some m => rows₅.filter (fun r => match r.total_amount with
            | some a => decide (a ≤ m)
            | none => false)
        | none => rows₅
      let rows₇ := match q.similarity_status with
        | some s => if s ≠ "" then rows₆.filter (fun r => match r.similarity_status with
            | some v => v == s
            | none => false) else rows₆
        | none => rows₆
      .ok rows₇

/-- List handler as surfaced over HTTP: the broad `except Exception` of
source line 186 catches any `HTTPException` raised by the body and
re-raises it as a 500 with detail `"Failed to fetch files: {e}"`. -/
def get_files (q : FilesQuery) (db : List FileRecord) :
    Except (Nat × String) (List FileRecord) :=
  match get_files_inner q db with
  | .ok r => .ok r
  | .error e => .error (500, "Failed to fetch files: " ++ toString e.1 ++ ": " ++ e.2)

/-- Form fields of `PUT /api/files/{id}` (source lines 222-231); `none` is
an absent field. `owner` is the one required field. -/
structure UpdateForm where
  owner : String
  work_detail : Option String
  ocr_text : Option String
  receipt_date : Option String
  total_amount : Option Int
  similarity_status : Option String
  similar_to_file_id : Option Nat
  similarity_score : Option Int
deriving Repr, DecidableEq

/-- Field assignment of the update handler, source lines 239-254: every
listed field is overwritten with the form value (absent fields become
`NULL`); a truthy `receipt_date` is parsed (an unparseable one raises the
400 of line 247), a falsy one clears the stored date (line 249). -/
def applyUpdate (f : UpdateForm) (r : FileRecord) : Except (Nat × String) FileRecord := do
  let rd ← if pyTruthyS f.receipt_date then
      match parseDateOpt (f.receipt_date.getD "") with
      | some d => pure (some d)
      | none => throw (400, "Invalid receipt_date format. Use YYYY-MM-DD.")
    else pure none
  pure { r with
    owner := f.owner,
    work_detail := f.work_detail,
    ocr_text := f.ocr_text,
    receipt_date := rd,
    total_amount := f.total_amount,
    similarity_status := f.similarity_status,
    similar_to_file_id := f.similar_to_file_id,
    similarity_score := f.similarity_score }

/-- Outcome of the update endpoint as surfaced over HTTP. -/
inductive UpdateResult where
  | updated (id : Nat)
  | httpError (status : Nat) (detail : String)
deriving Repr, DecidableEq

/-- Update handler, source lines 221-265: select the first row with the
given id (line 235); on no match raise 404 (line 237); apply the wholesale
field assignment and commit. Either `HTTPException` is converted to a 500
by the broad `except Exception` of line 260 (which also rolls the row
back, leaving the table unchanged). -/
def update_file (fid : Nat) (f : UpdateForm) (db : List FileRecord) :
    List FileRecord × UpdateResult :=
  match db.find? (fun r => r.id == fid) with
  | none => (db, .httpError 500 "Failed to update file: 404: File not found")
  | some r =>
    match applyUpdate f r with
    | .ok r₁ => (db.map (fun x => if x.id == fid then r₁ else x), .updated fid)
    | .error e =>
      (db, .httpError 500 ("Failed to update file: " ++ toString e.1 ++ ": " ++ e.2))

/-- Cell of the exported CSV. A date cell carries the day number standing
for the `isoformat()` rendering of that date (an injective encoding). -/
inductive CsvCell where
  | null
  | str (v : String)
  | nat (v : Nat)
  | int (v : Int)
deriving Repr, DecidableEq

/-- Optional column rendering: `NULL` becomes an empty cell. -/
def optCell (f : α → CsvCell) : Option α → CsvCell
  | none => .null
  | some v => f v

/-- ISO rendering of the `uploaded_at` timestamp (`datetime.isoformat()`). -/
def isoOfTimestamp (t : Timestamp) : String :=
  pad4 t.year ++ "-" ++ pad2 t.month ++ "-" ++ pad2 t.day ++ "T" ++
    pad2 t.hour ++ ":" ++ pad2 t.minute ++ ":" ++ pad2 t.second

/-- Column headers of the export, in the order the row dict of source
lines 334-347 lists them. -/
def csvHeaders : List String :=
  ["ID", "Filename", "Owner", "Work Detail", "Uploaded At", "Client IP", "OCR Text",
   "Receipt Date", "Total Amount", "Similarity Status", "Similar To File ID",
   "Similarity Score"]

/-- One CSV data row per record, source lines 334-347. -/
def recordCsvRow (r : FileRecord) : List CsvCell :=
  [.nat r.id, .str r.filename, .str r.owner, optCell .str r.work_detail,
   .str (isoOfTimestamp r.uploaded_at), optCell .str r.client_ip, optCell .str r.ocr_text,
   optCell .nat r.receipt_date, optCell .int r.total_amount,
   optCell .str r.similarity_status, optCell .nat r.similar_to_file_id,
   optCell .int r.similarity_score]

/-- HTTP response of the export endpoint: a status code and, when a body is
present, the header row followed by the data rows. -/
structure CsvResponse where
  status : Nat
  body : Option (List String × List (List CsvCell))
deriving Repr, DecidableEq

/-- Export handler, source lines 323-365: an empty table yields a bare 204
response with no body (line 330); otherwise `DataFrame.to_csv(index=False)`
emits the header row and one row per record, in table order. -/
def export_to_csv (db : List FileRecord) : CsvResponse :=
  match db with
  | [] => { status := 204, body := none }
  | _ => { status := 200, body := some (csvHeaders, db.map recordCsvRow) }

/-- Stored name always lands in the blob directory after a put. -/
theorem mem_putBlob (name : String) (blobs : List String) : name ∈ putBlob name blobs := by
  unfold putBlob
  by_cases h : name ∈ blobs
  · simp [h]
  · simp [h]

/-- Fixed wall-clock instant used by concrete witnesses. -/
def exTs : Timestamp := ⟨2024, 5, 17, 12, 0, 0⟩

/-- Record number 5, owned by bob, used by concrete witnesses. -/
def exRec5 : FileRecord := mkRecord 5 "r5.pdf" "bob" none exTs none

/-- One-record example state whose blob directory holds record 5's blob. -/
def exSt : SysState := { blobs := ["r5.pdf"], records := [exRec5], nextId := 6 }

/-- Claim C1: for every record id and caller-supplied owner, `delete_file`
succeeds exactly when some stored record matches both the id and the owner;
in every other case (no such id, or the owner differs) it returns one and
the same not-found error — leaking nothing about which case occurred — and
the whole state, in particular any record stored under that id, is left
unchanged. -/
theorem delete_requires_id_and_owner_match (fid : Nat) (owner : String) (st : SysState) :
    ((delete_file fid owner st).2 = DeleteResult.deleted ↔
      ∃ r ∈ st.records, r.id = fid ∧ r.owner = owner) ∧
    ((¬ ∃ r ∈ st.records, r.id = fid ∧ r.owner = owner) →
      delete_file fid owner st =
        (st, DeleteResult.httpError 500
          "Failed to delete file: 404: File not found or owner mismatch.")) := by
  cases hfind : st.records.find? (fun r => r.id == fid && r.owner == owner) with
  | none =>
    have hall := List.find?_eq_none.mp hfind
    constructor
    · simp only [delete_file, hfind]
      constructor
      · intro h
        exact absurd h (by simp)
      · rintro ⟨r, hr, hid, hown⟩
        exact absurd (by simp [hid, hown] : (r.id == fid && r.owner == owner) = true)
          (by simpa using hall r hr)
    · intro _
      simp [delete_file, hfind]
  | some r =>
    have hp := List.find?_some hfind
    have hmem := List.mem_of_find?_eq_some hfind
    simp only [Bool.and_eq_true, beq_iff_eq] at hp
    constructor
    · simp only [delete_file, hfind]
      constructor
      · intro _
        exact ⟨r, hmem, hp.1, hp.2⟩
      · intro _
        trivial
    · intro hno
      exact absurd ⟨r, hmem, hp.1, hp.2⟩ hno

/-- Witness for C1: deleting record 5 as alice, while record 5 is owned by
bob, yields the fixed not-found error and leaves the state untouched. -/
theorem delete_requires_id_and_owner_match_witness :
    (¬ ∃ r ∈ exSt.records, r.id = 5 ∧ r.owner = "alice") ∧
    delete_file 5 "alice" exSt =
      (exSt, DeleteResult.httpError 500
        "Failed to delete file: 404: File not found or owner mismatch.") :=
  ⟨by decide, (delete_requires_id_and_owner_match 5 "alice" exSt).2 (by decide)⟩

/-- One-record example state whose blob directory is empty (the blob of
record 5 is missing on disk). -/
def exStNoBlob : SysState := { blobs := [], records := [exRec5], nextId := 6 }

/-- Claim C8: when the id-and-owner match succeeds but the blob is absent
from the directory, the delete still succeeds: the blob store is left as it
was (the absence is only logged) and the matched row is removed from the
table. -/
theorem delete_with_missing_blob_succeeds (fid : Nat) (owner : String) (st : SysState)
    (r : FileRecord)
    (hfind : st.records.find? (fun x => x.id == fid && x.owner == owner) = some r)
    (hblob : r.filename ∉ st.blobs) :
    (delete_file fid owner st).2 = DeleteResult.deleted ∧
    (delete_file fid owner st).1.blobs = st.blobs ∧
    (delete_file fid owner st).1.records =
      st.records.eraseP (fun x => x.id == fid && x.owner == owner) ∧
    (delete_file fid owner st).1.records.length + 1 = st.records.length := by
  have hmem := List.mem_of_find?_eq_some hfind
  have hp := List.find?_some hfind
  refine ⟨?_, ?_, ?_, ?_⟩
  · simp [delete_file, hfind]
  · simp [delete_file, hfind, hblob]
  · simp [delete_file, hfind]
  · simp only [delete_file, hfind]
    exact List.length_eraseP_add_one hmem hp

/-- Witness for C8: deleting record 5 as its owner bob while the blob
directory is empty succeeds and removes the row. -/
theorem delete_with_missing_blob_succeeds_witness :
    (exStNoBlob.records.find? (fun x => x.id == 5 && x.owner == "bob") = some exRec5) ∧
    exRec5.filename ∉ exStNoBlob.blobs ∧
    ((delete_file 5 "bob" exStNoBlob).2 = DeleteResult.deleted ∧
     (delete_file 5 "bob" exStNoBlob).1.blobs = exStNoBlob.blobs ∧
     (delete_file 5 "bob" exStNoBlob).1.records =
       exStNoBlob.records.eraseP (fun x => x.id == 5 && x.owner == "bob") ∧
     (delete_file 5 "bob" exStNoBlob).1.records.length + 1 = exStNoBlob.records.length) :=
  ⟨by decide, by decide,
    delete_with_missing_blob_succeeds 5 "bob" exStNoBlob exRec5 (by decide) (by decide)⟩

/-- Claim C5 (status recorded as a code bug on the HTTP status): an upload
whose lower-cased original extension is not one of `.jpg .jpeg .png .pdf`
changes nothing — the state (rows and blobs) is returned untouched and the
outcome is the invalid-file-type error, independently of the sanitizer, of
the clock and of the write/insert verdicts (so the rejection precedes
sanitization, the blob write and the insert). The surfaced status is 500,
not the claimed 400: the handler's broad `except Exception` (source line
125) swallows the 400 of line 90 and re-raises it as a 500. -/
theorem upload_invalid_extension_no_effect (isAlnum : Char → Bool) (now : Timestamp)
    (fname owner : String) (wd ip : Option String) (blobWriteOk insertOk : Bool)
    (st : SysState)
    (hne : fname ≠ "") (hext : fileExtensionOf fname ∉ allowedExtensions) :
    upload_file isAlnum now fname owner wd ip blobWriteOk insertOk st =
      (st, UploadResult.httpError 500
        "An error occurred during upload: 400: Invalid file type. Only JPG, JPEG, PNG, PDF are allowed.") := by
  simp [upload_file, hne, hext]

/-- Witness for C5: uploading `evil.exe` leaves the example state untouched
and surfaces the wrapped invalid-file-type error. -/
theorem upload_invalid_extension_no_effect_witness :
    ("evil.exe" ≠ "") ∧ fileExtensionOf "evil.exe" ∉ allowedExtensions ∧
    upload_file Char.isAlphanum exTs "evil.exe" "alice" none none true true exSt =
      (exSt, UploadResult.httpError 500
        "An error occurred during upload: 400: Invalid file type. Only JPG, JPEG, PNG, PDF are allowed.") :=
  ⟨by decide, by decide,
    upload_invalid_extension_no_effect Char.isAlphanum exTs "evil.exe" "alice" none none
      true true exSt (by decide) (by decide)⟩

/-- Claim C7: the row insert comes after the blob write — when the blob
write fails the state (in particular the table) is fully unchanged for
either insert verdict, and when the blob write succeeds but the insert then
fails, the freshly written blob stays in the directory while the table is
rolled back unchanged. -/
theorem upload_blob_before_row (isAlnum : Char → Bool) (now : Timestamp)
    (fname owner : String) (wd ip : Option String) (st : SysState)
    (hne : fname ≠ "") (hext : fileExtensionOf fname ∈ allowedExtensions) :
    (∀ insertOk, (upload_file isAlnum now fname owner wd ip false insertOk st).1 = st) ∧
    ((upload_file isAlnum now fname owner wd ip true false st).1.records = st.records ∧
     (upload_file isAlnum now fname owner wd ip true false st).1.blobs =
       putBlob (storedFilename isAlnum now fname) st.blobs ∧
     storedFilename isAlnum now fname ∈
       (upload_file isAlnum now fname owner wd ip true false st).1.blobs) := by
  constructor
  · intro insertOk
    simp [upload_file, hne, hext]
  · refine ⟨?_, ?_, ?_⟩
    · simp [upload_file, hne, hext]
    · simp [upload_file, hne, hext]
    · simp [upload_file, hne, hext, mem_putBlob]

/-- Witness for C7: a failed write of `a.pdf` leaves the example state
unchanged; a successful write followed by a failed insert keeps the blob
while the table stays as before. -/
theorem upload_blob_before_row_witness :
    ("a.pdf" ≠ "") ∧ fileExtensionOf "a.pdf" ∈ allowedExtensions ∧
    ((∀ insertOk,
        (upload_file Char.isAlphanum exTs "a.pdf" "alice" none none false insertOk exSt).1 =
          exSt) ∧
     ((upload_file Char.isAlphanum exTs "a.pdf" "alice" none none true false exSt).1.records =
        exSt.records ∧
      (upload_file Char.isAlphanum exTs "a.pdf" "alice" none none true false exSt).1.blobs =
        putBlob (storedFilename Char.isAlphanum exTs "a.pdf") exSt.blobs ∧
      storedFilename Char.isAlphanum exTs "a.pdf" ∈
        (upload_file Char.isAlphanum exTs "a.pdf" "alice" none none true false exSt).1.blobs)) :=
  ⟨by decide, by decide,
    upload_blob_before_row Char.isAlphanum exTs "a.pdf" "alice" none none exSt
      (by decide) (by decide)⟩

/-- Agreement of the source's character filter with the spec's wording. -/
theorem keepChar_eq_spec (isAlnum : Char → Bool) (c : Char) :
    keepChar isAlnum c = (isAlnum c || decide (c ∈ ['.', '_', '-'])) := by
  by_cases h1 : c = '.' <;> by_cases h2 : c = '_' <;> by_cases h3 : c = '-' <;>
    simp [keepChar, List.mem_cons, h1, h2, h3]

/-- Agreement of the handler's stored-filename computation with the
algorithm as the specification words it. -/
theorem storedFilename_matches_spec (isAlnum : Char → Bool) (now : Timestamp)
    (fname : String) :
    storedFilename isAlnum now fname = specStoredFilename isAlnum now fname := by
  have hf : fname.data.filter (keepChar isAlnum) =
      fname.data.filter (fun c => isAlnum c || decide (c ∈ ['.', '_', '-'])) :=
    List.filter_congr (fun c _ => keepChar_eq_spec isAlnum c)
  simp only [storedFilename, specStoredFilename, sanitized_filename, pyStrip,
    fileExtensionOf, hf]

/-- Claim C2: a successfully stored upload records exactly the filename the
specification's sanitization algorithm prescribes — retain only
alphanumeric characters and `.`, `_`, `-`, trim surrounding whitespace,
and fall back to `uploaded_file_<YYYYMMDDHHMMSS timestamp><lower-cased
original extension>` when the result is empty — and writes the blob under
that same name. -/
theorem upload_stores_sanitized_filename (isAlnum : Char → Bool) (now : Timestamp)
    (fname owner : String) (wd ip : Option String) (st : SysState)
    (hne : fname ≠ "") (hext : fileExtensionOf fname ∈ allowedExtensions) :
    (upload_file isAlnum now fname owner wd ip true true st).1.records =
      st.records ++ [mkRecord st.nextId (specStoredFilename isAlnum now fname) owner wd now ip] ∧
    (upload_file isAlnum now fname owner wd ip true true st).1.blobs =
      putBlob (specStoredFilename isAlnum now fname) st.blobs := by
  have h := storedFilename_matches_spec isAlnum now fname
  constructor
  · simp [upload_file, hne, hext, ← h]
  · simp [upload_file, hne, hext, ← h]

/-- Witness for C2: uploading `my report #1!.pdf` (with the ASCII
alphanumeric classifier) stores it under the sanitized name the spec
algorithm computes, namely `myreport1.pdf`. -/
theorem upload_stores_sanitized_filename_witness :
    ("my report #1!.pdf" ≠ "") ∧
    fileExtensionOf "my report #1!.pdf" ∈ allowedExtensions ∧
    ((upload_file Char.isAlphanum exTs "my report #1!.pdf" "alice" none none true true
        exSt).1.records =
      exSt.records ++
        [mkRecord exSt.nextId (specStoredFilename Char.isAlphanum exTs "my report #1!.pdf")
          "alice" none exTs none] ∧
     (upload_file Char.isAlphanum exTs "my report #1!.pdf" "alice" none none true true
        exSt).1.blobs =
      putBlob (specStoredFilename Char.isAlphanum exTs "my report #1!.pdf") exSt.blobs) ∧
    specStoredFilename Char.isAlphanum exTs "my report #1!.pdf" = "myreport1.pdf" :=
  ⟨by decide, by decide,
    upload_stores_sanitized_filename Char.isAlphanum exTs "my report #1!.pdf" "alice"
      none none exSt (by decide) (by decide),
    by decide⟩

/-- Claim C3: with parseable start and end filter values, the list
operation keeps exactly the records whose (non-null) receipt date satisfies
`start ≤ d` and `d < end + 1 day`; the whole end day is inclusive, the
following day is out. -/
theorem list_date_range_halfopen (s e : String) (ds de : Nat) (db : List FileRecord)
    (hs : parseDateOpt s = some ds) (hsne : s ≠ "")
    (he : parseDateOpt e = some de) (hene : e ≠ "") :
    ∃ l, get_files
        { emptyQuery with receipt_date_start := some s, receipt_date_end := some e } db =
        Except.ok l ∧
      ∀ r, r ∈ l ↔ r ∈ db ∧ ∃ d, r.receipt_date = some d ∧ ds ≤ d ∧ d < de + 1 := by
  refine ⟨((db.filter fun r => match r.receipt_date with
      | some d => decide (ds ≤ d)
      | none => false).filter fun r => match r.receipt_date with
      | some d => decide (d < de + 1)
      | none => false), ?_, ?_⟩
  · simp [get_files, get_files_inner, emptyQuery, hs, hsne, he, hene]
  · intro r
    simp only [List.mem_filter]
    cases hrd : r.receipt_date with
    | none => simp [hrd]
    | some d => simp [hrd, and_assoc]

/-- Record with receipt date 2024-01-31, used by concrete witnesses. -/
def recJan31 : FileRecord := { exRec5 with id := 1, receipt_date := some (dayNumber 2024 1 31) }

/-- Record with receipt date 2024-02-01, used by concrete witnesses. -/
def recFeb01 : FileRecord := { exRec5 with id := 2, receipt_date := some (dayNumber 2024 2 1) }

/-- Witness for C3: filtering 2024-01-01 .. 2024-01-31 keeps the record
dated on the end day itself and drops the one dated the following day. -/
theorem list_date_range_halfopen_witness :
    (parseDateOpt "2024-01-01" = some (dayNumber 2024 1 1) ∧ "2024-01-01" ≠ "" ∧
     parseDateOpt "2024-01-31" = some (dayNumber 2024 1 31) ∧ "2024-01-31" ≠ "") ∧
    (∃ l, get_files
        { emptyQuery with receipt_date_start := some "2024-01-01",
                          receipt_date_end := some "2024-01-31" }
        [recJan31, recFeb01] = Except.ok l ∧
      ∀ r, r ∈ l ↔ r ∈ [recJan31, recFeb01] ∧
        ∃ d, r.receipt_date = some d ∧ dayNumber 2024 1 1 ≤ d ∧ d < dayNumber 2024 1 31 + 1) ∧
    get_files
        { emptyQuery with receipt_date_start := some "2024-01-01",
                          receipt_date_end := some "2024-01-31" }
        [recJan31, recFeb01] = Except.ok [recJan31] :=
  ⟨⟨by decide, by decide, by decide, by decide⟩,
    list_date_range_halfopen "2024-01-01" "2024-01-31" (dayNumber 2024 1 1)
      (dayNumber 2024 1 31) [recJan31, recFeb01] (by decide) (by decide) (by decide)
      (by decide),
    by rfl⟩

/-- Claim C4 (status recorded as a code bug on the HTTP status): a supplied
but unparseable date filter value makes the list operation fail — no result
list is returned and the value is not silently ignored — but the surfaced
status is 500, not the claimed 400: the broad `except Exception` of source
line 186 swallows the explicit 400 of lines 154/160 and re-raises it as a
500 wrapping the original message. -/
theorem list_unparseable_date_yields_500 (s : String) (db : List FileRecord)
    (hne : s ≠ "") (hbad : parseDateOpt s = none) :
    get_files { emptyQuery with receipt_date_start := some s } db =
      Except.error (500,
        "Failed to fetch files: 400: Invalid receipt_date_start format. Use YYYY-MM-DD.") ∧
    get_files { emptyQuery with receipt_date_end := some s } db =
      Except.error (500,
        "Failed to fetch files: 400: Invalid receipt_date_end format. Use YYYY-MM-DD.") := by
  constructor <;> simp [get_files, get_files_inner, emptyQuery, hne, hbad] <;> rfl

/-- Witness for C4: the filter value `not-a-date` produces the wrapped 500
error on either date parameter. -/
theorem list_unparseable_date_yields_500_witness :
    ("not-a-date" ≠ "") ∧ parseDateOpt "not-a-date" = none ∧
    (get_files { emptyQuery with receipt_date_start := some "not-a-date" } [exRec5] =
      Except.error (500,
        "Failed to fetch files: 400: Invalid receipt_date_start format. Use YYYY-MM-DD.") ∧
     get_files { emptyQuery with receipt_date_end := some "not-a-date" } [exRec5] =
      Except.error (500,
        "Failed to fetch files: 400: Invalid receipt_date_end format. Use YYYY-MM-DD.")) :=
  ⟨by decide, by decide,
    list_unparseable_date_yields_500 "not-a-date" [exRec5] (by decide) (by decide)⟩

/-- Claim C6: update of an existing record is a wholesale replacement: each
of owner, work_detail, ocr_text, total_amount, similarity_status,
similar_to_file_id and similarity_score takes exactly the supplied form
value (an unsupplied field, being `none`, becomes null; owner is required
and always supplied), an empty or absent receipt_date clears any stored
date to null, and id, uploaded_at and client_ip stay untouched. -/
theorem update_replaces_fields_wholesale (fid : Nat) (f : UpdateForm)
    (db : List FileRecord) (r : FileRecord)
    (hfind : db.find? (fun x => x.id == fid) = some r)
    (hdate : pyTruthyS f.receipt_date = false) :
    ∃ db₁ r₁, update_file fid f db = (db₁, UpdateResult.updated fid) ∧ r₁ ∈ db₁ ∧
      r₁.id = r.id ∧ r₁.uploaded_at = r.uploaded_at ∧ r₁.client_ip = r.client_ip ∧
      r₁.filename = r.filename ∧
      r₁.owner = f.owner ∧ r₁.work_detail = f.work_detail ∧ r₁.ocr_text = f.ocr_text ∧
      r₁.receipt_date = none ∧ r₁.total_amount = f.total_amount ∧
      r₁.similarity_status = f.similarity_status ∧
      r₁.similar_to_file_id = f.similar_to_file_id ∧
      r₁.similarity_score = f.similarity_score := by
  have happ : applyUpdate f r = Except.ok { r with
      owner := f.owner, work_detail := f.work_detail, ocr_text := f.ocr_text,
      receipt_date := none, total_amount := f.total_amount,
      similarity_status := f.similarity_status,
      similar_to_file_id := f.similar_to_file_id,
      similarity_score := f.similarity_score } := by
    simp only [applyUpdate, hdate, Bool.false_eq_true, if_false]
    rfl
  have hid : r.id = fid := by
    have h := List.find?_some hfind
    simpa using h
  have hmem := List.mem_of_find?_eq_some hfind
  refine ⟨db.map (fun x => if x.id == fid then { r with
      owner := f.owner, work_detail := f.work_detail, ocr_text := f.ocr_text,
      receipt_date := none, total_amount := f.total_amount,
      similarity_status := f.similarity_status,
      similar_to_file_id := f.similar_to_file_id,
      similarity_score := f.similarity_score } else x),
    { r with
      owner := f.owner, work_detail := f.work_detail, ocr_text := f.ocr_text,
      receipt_date := none, total_amount := f.total_amount,
      similarity_status := f.similarity_status,
      similar_to_file_id := f.similar_to_file_id,
      similarity_score := f.similarity_score },
    ?_, ?_, rfl, rfl, rfl, rfl, rfl, rfl, rfl, rfl, rfl, rfl, rfl, rfl⟩
  · simp [update_file, hfind, happ]
  · exact List.mem_map.mpr ⟨r, hmem, by simp [hid]⟩

/-- Record 5 with a stored receipt date, amount and OCR text. -/
def exRecWithDate : FileRecord :=
  { exRec5 with
    receipt_date := some (dayNumber 2024 1 15)
    total_amount := some 10000
    ocr_text := some "receipt text" }

/-- Update form supplying only the required owner and an empty receipt_date. -/
def exForm : UpdateForm :=
  { owner := "bob", work_detail := none, ocr_text := none, receipt_date := some "",
    total_amount := none, similarity_status := none, similar_to_file_id := none,
    similarity_score := none }

/-- Witness for C6: updating record 5 with `receipt_date=""` and no other
optional fields clears the stored date and nulls every unsupplied field. -/
theorem update_replaces_fields_wholesale_witness :
    ([exRecWithDate].find? (fun x => x.id == 5) = some exRecWithDate) ∧
    pyTruthyS exForm.receipt_date = false ∧
    (∃ db₁ r₁, update_file 5 exForm [exRecWithDate] = (db₁, UpdateResult.updated 5) ∧
      r₁ ∈ db₁ ∧
      r₁.id = exRecWithDate.id ∧ r₁.uploaded_at = exRecWithDate.uploaded_at ∧
      r₁.client_ip = exRecWithDate.client_ip ∧ r₁.filename = exRecWithDate.filename ∧
      r₁.owner = exForm.owner ∧ r₁.work_detail = exForm.work_detail ∧
      r₁.ocr_text = exForm.ocr_text ∧ r₁.receipt_date = none ∧
      r₁.total_amount = exForm.total_amount ∧
      r₁.similarity_status = exForm.similarity_status ∧
      r₁.similar_to_file_id = exForm.similar_to_file_id ∧
      r₁.similarity_score = exForm.similarity_score) :=
  ⟨by decide, by decide,
    update_replaces_fields_wholesale 5 exForm [exRecWithDate] exRecWithDate
      (by decide) (by decide)⟩

/-- Claim C9: exporting an empty store yields a bare 204 with no body;
exporting a non-empty store yields a body whose header row carries the
twelve human-readable column names and which holds exactly one data row
per stored record. -/
theorem export_csv_shape (db : List FileRecord) :
    ((export_to_csv []).status = 204 ∧ (export_to_csv []).body = none) ∧
    (db ≠ [] → (export_to_csv db).status = 200 ∧
      ∃ rows, (export_to_csv db).body = some
          (["ID", "Filename", "Owner", "Work Detail", "Uploaded At", "Client IP",
            "OCR Text", "Receipt Date", "Total Amount", "Similarity Status",
            "Similar To File ID", "Similarity Score"], rows) ∧
        rows.length = db.length ∧ rows = db.map recordCsvRow) := by
  constructor
  · constructor <;> rfl
  · intro hne
    match db, hne with
    | r :: rest, _ =>
      refine ⟨rfl, (r :: rest).map recordCsvRow, ?_, by simp, rfl⟩
      simp [export_to_csv, csvHeaders]

/-- Witness for C9: a one-record store exports a 200 response with the
header row and a single data row. -/
theorem export_csv_shape_witness :
    ([exRec5] ≠ ([] : List FileRecord)) ∧
    ((export_to_csv [exRec5]).status = 200 ∧
      ∃ rows, (export_to_csv [exRec5]).body = some
          (["ID", "Filename", "Owner", "Work Detail", "Uploaded At", "Client IP",
            "OCR Text", "Receipt Date", "Total Amount", "Similarity Status",
            "Similar To File ID", "Similarity Score"], rows) ∧
        rows.length = [exRec5].length ∧ rows = [exRec5].map recordCsvRow) :=
  ⟨by decide, (export_csv_shape [exRec5]).2 (by decide)⟩

/-- Claim C10: a string filter parameter supplied as the empty string
(owner, filename, similarity_status, receipt_date_start, receipt_date_end)
is tested for truthiness, so it adds no predicate and the listing is the
same as with the parameter absent; the amount bounds are instead tested
against `None` only, so a bound supplied as 0 does add its predicate — a
record with a null amount is kept with no bound but dropped under
`total_amount_min = 0` or `total_amount_max = 0`. -/
theorem empty_string_filters_inert (q : FilesQuery) (db : List FileRecord) :
    (get_files { q with owner := some "" } db = get_files { q with owner := none } db ∧
     get_files { q with filename := some "" } db =
       get_files { q with filename := none } db ∧
     get_files { q with receipt_date_start := some "" } db =
       get_files { q with receipt_date_start := none } db ∧
     get_files { q with receipt_date_end := some "" } db =
       get_files { q with receipt_date_end := none } db ∧
     get_files { q with similarity_status := some "" } db =
       get_files { q with similarity_status := none } db) ∧
    (get_files { emptyQuery with total_amount_min := some 0 } [exRec5] = Except.ok [] ∧
     get_files { emptyQuery with total_amount_max := some 0 } [exRec5] = Except.ok [] ∧
     get_files emptyQuery [exRec5] = Except.ok [exRec5]) := by
  refine ⟨⟨?_, ?_, ?_, ?_, ?_⟩, ?_, ?_, ?_⟩ <;> rfl
